import Mathlib

/-!
Verification of the opencode-model-router plugin core (src/index.ts, the
version with the persisted state file and config cache).

The JavaScript code is shallowly embedded: JS objects whose key insertion
order matters become association lists `List (String × _)`, JS `undefined`
for an optional field becomes `Option`, JS string primitives
(`toLowerCase`, `trim`, `split("/")`, `Array.join`) are modelled as
executable Lean functions over `String`/`List Char`, and the module-level
mutable cache (`_cachedConfig`, `_configDirty`) together with the two disk
files (tiers.json and the state file) become explicit state passed through
the operations (`Disk`, `CacheState`).  The raw-JSON validator
`validateConfig` is modelled over a `Json` inductive; the cache/switch
pipeline operates on already-validated documents.
-/

/-- Model of JS `s.toLowerCase()` (ASCII case folding, as `Char.toLower`). -/
def jsToLower (s : String) : String := ⟨s.data.map Char.toLower⟩

/-- The whitespace characters JS `trim` removes, restricted to the ASCII
ones that can appear in the plugin's inputs. -/
def jsWhitespace (c : Char) : Bool :=
  c == ' ' || c == '\t' || c == '\n' || c == '\r'

/-- Model of JS `s.trim()`: strip whitespace from both ends. -/
def jsTrim (s : String) : String :=
  ⟨((s.data.dropWhile jsWhitespace).reverse.dropWhile jsWhitespace).reverse⟩

/-- Split a character list at every occurrence of `sep`; models JS
`s.split(sep)` for a one-character separator (always returns at least one
group). -/
def splitOnChar (sep : Char) : List Char → List (List Char)
  | [] => [[]]
  | c :: rest =>
    match splitOnChar sep rest with
    | [] => [[]]
    | group :: groups =>
      if c == sep then [] :: group :: groups else (c :: group) :: groups

/-- Model of `t.model.split("/").pop() ?? t.model`: the last segment of the
model id (`split` never returns an empty array, so the `??` arm is dead). -/
def lastSegment (s : String) : String :=
  match (splitOnChar '/' s.data).getLast? with
  | some seg => ⟨seg⟩
  | none => s

/-- Model of JS `Array.prototype.join(sep)`. -/
def joinSep (sep : String) : List String → String
  | [] => ""
  | [s] => s
  | s :: rest => s ++ sep ++ joinSep sep rest

/-- `array.join("\n")`, the join used for every multi-line block. -/
def joinLines (lines : List String) : String := joinSep "\n" lines

-- ---------------------------------------------------------------------------
-- Data model (the TypeScript interfaces)
-- ---------------------------------------------------------------------------

/-- `interface ThinkingConfig`. -/
structure ThinkingConfig where
  budgetTokens : Option Nat
deriving DecidableEq, Repr

/-- `interface ReasoningConfig` (the string-literal unions kept as strings). -/
structure ReasoningConfig where
  effort : Option String
  summary : Option String
deriving DecidableEq, Repr

/-- `interface TierConfig`. -/
structure TierConfig where
  model : String
  variant : Option String
  thinking : Option ThinkingConfig
  reasoning : Option ReasoningConfig
  costRatio : Option Int
  color : Option String
  description : String
  steps : Option Nat
  prompt : Option String
  whenToUse : List String
deriving DecidableEq, Repr

/-- `type Preset = Record<string, TierConfig>` — insertion-ordered object. -/
abbrev Preset := List (String × TierConfig)

/-- `interface FallbackConfig`. -/
structure FallbackConfig where
  global : Option (List (String × List String))
  presets : Option (List (String × List (String × List String)))
deriving DecidableEq, Repr

/-- `interface ModeConfig`. -/
structure ModeConfig where
  defaultTier : String
  description : String
  overrideRules : Option (List String)
deriving DecidableEq, Repr

/-- `interface RouterConfig` (the validated document, also the effective
configuration once the persisted state has been applied). -/
structure RouterConfig where
  activePreset : String
  activeMode : Option String
  presets : List (String × Preset)
  rules : List String
  defaultTier : String
  fallback : Option FallbackConfig
  taskPatterns : Option (List (String × List String))
  modes : Option (List (String × ModeConfig))
deriving DecidableEq, Repr

/-- `interface RouterState` — the persisted override record. -/
structure RouterState where
  activePreset : Option String
  activeMode : Option String
deriving DecidableEq, Repr

-- ---------------------------------------------------------------------------
-- Name resolver
-- ---------------------------------------------------------------------------

/-- `resolvePresetName(cfg, requestedPreset)`: exact key match first, then a
case-insensitive search over the keys of `cfg.presets`; `undefined` when the
trimmed, lowercased request is empty or nothing matches. -/
def resolvePresetName (cfg : RouterConfig) (requestedPreset : String) : Option String :=
  if (cfg.presets.lookup requestedPreset).isSome then
    some requestedPreset
  else
    let normalized := jsToLower (jsTrim requestedPreset)
    if normalized = "" then none
    else (cfg.presets.map Prod.fst).find? (fun name => jsToLower name == normalized)

-- ---------------------------------------------------------------------------
-- Raw JSON documents and validateConfig
-- ---------------------------------------------------------------------------

/-- Raw decoded JSON, the input of `validateConfig`. -/
inductive Json where
  | null
  | bool (b : Bool)
  | num (n : Int)
  | str (s : String)
  | arr (elems : List Json)
  | obj (fields : List (String × Json))

/-- JS property access `o[key]` on a decoded value: `undefined` (`none`)
unless `o` is an object with that key. -/
def Json.getField : Json → String → Option Json
  | .obj fields, key => fields.lookup key
  | _, _ => none

/-- The per-tier checks of `validateConfig` (`model` a non-empty string,
`description` a string, `whenToUse` an array).  A tier that is itself an
array passes JS's `typeof tier === "object"` check and then fails here,
because property access on it yields `undefined`. -/
def checkTierFields (presetName tierName : String) (tier : Json) : Except String Unit := do
  match tier.getField "model" with
  | some (.str m) =>
    if m = "" then
      throw s!"tiers.json: '{presetName}.{tierName}.model' must be a non-empty string"
  | _ => throw s!"tiers.json: '{presetName}.{tierName}.model' must be a non-empty string"
  match tier.getField "description" with
  | some (.str _) => pure ()
  | _ => throw s!"tiers.json: '{presetName}.{tierName}.description' must be a string"
  match tier.getField "whenToUse" with
  | some (.arr _) => pure ()
  | _ => throw s!"tiers.json: '{presetName}.{tierName}.whenToUse' must be an array"

/-- The per-mode checks of `validateConfig` (string `defaultTier` and
`description`). -/
def checkModeFields (modeName : String) (mode : Json) : Except String Unit := do
  match mode.getField "defaultTier" with
  | some (.str _) => pure ()
  | _ => throw s!"tiers.json: mode '{modeName}.defaultTier' must be a string"
  match mode.getField "description" with
  | some (.str _) => pure ()
  | _ => throw s!"tiers.json: mode '{modeName}.description' must be a string"

/-- `validateConfig(raw)`: the structural checks, in source order.  Only the
checks are modelled (the function's error behaviour); the final
`raw as RouterConfig` cast performs no computation. -/
def validateConfig (raw : Json) : Except String Unit := do
  match raw with
  | .obj _ => pure ()
  | .arr _ => pure ()           -- typeof [] === "object" in JS
  | _ => throw "tiers.json: expected a JSON object at root"
  match raw.getField "activePreset" with
  | some (.str s) =>
    if s = "" then throw "tiers.json: 'activePreset' must be a non-empty string"
  | _ => throw "tiers.json: 'activePreset' must be a non-empty string"
  match raw.getField "presets" with
  | some (.obj presetEntries) =>
    presetEntries.forM fun (presetName, preset) => do
      match preset with
      | .obj tierEntries =>
        tierEntries.forM fun (tierName, tier) => do
          match tier with
          | .obj _ => checkTierFields presetName tierName tier
          | .arr _ => checkTierFields presetName tierName tier
          | _ => throw s!"tiers.json: tier '{presetName}.{tierName}' must be an object"
      | _ => throw s!"tiers.json: preset '{presetName}' must be an object"
  | _ => throw "tiers.json: 'presets' must be a non-null object"
  match raw.getField "rules" with
  | some (.arr _) => pure ()
  | _ => throw "tiers.json: 'rules' must be an array of strings"
  match raw.getField "defaultTier" with
  | some (.str _) => pure ()
  | _ => throw "tiers.json: 'defaultTier' must be a string"
  match raw.getField "modes" with
  | none => pure ()
  | some (.obj modeEntries) =>
    modeEntries.forM fun (modeName, mode) => do
      match mode with
      | .obj _ => checkModeFields modeName mode
      | .arr _ => checkModeFields modeName mode
      | _ => throw s!"tiers.json: mode '{modeName}' must be an object"
  | some _ => throw "tiers.json: 'modes' must be an object"
  match raw.getField "taskPatterns" with
  | none => pure ()
  | some (.obj tpEntries) =>
    tpEntries.forM fun (tierName, patterns) => do
      match patterns with
      | .arr _ => pure ()
      | _ => throw s!"tiers.json: taskPatterns.'{tierName}' must be an array of strings"
  | some _ => throw "tiers.json: 'taskPatterns' must be an object"

-- ---------------------------------------------------------------------------
-- Cache, disk state, loadConfig
-- ---------------------------------------------------------------------------

/-- The on-disk inputs of the core: the (already validated) tiers.json
document and the persisted override file (`none` models an absent or
unparsable state file, exactly what `readState`'s catch produces). -/
structure Disk where
  doc : RouterConfig
  stateFile : Option RouterState
deriving DecidableEq, Repr

/-- The module-level mutable cache: `_cachedConfig` and `_configDirty`. -/
structure CacheState where
  cachedConfig : Option RouterConfig
  configDirty : Bool
deriving DecidableEq, Repr

/-- `readState()`: the persisted record, or `{}` when the file is absent or
unreadable. -/
def readState (stateFile : Option RouterState) : RouterState :=
  stateFile.getD ⟨none, none⟩

/-- The `state.activePreset` branch of `loadConfig`: a truthy (non-empty)
persisted preset name that resolves overrides the document value. -/
def applyStatePreset (cfg : RouterConfig) (state : RouterState) : RouterConfig :=
  match state.activePreset with
  | some sp =>
    if sp = "" then cfg
    else
      match resolvePresetName cfg sp with
      | some resolved => { cfg with activePreset := resolved }
      | none => cfg
  | none => cfg

/-- The `state.activeMode` branch of `loadConfig`: a truthy persisted mode
name that is a key of `cfg.modes` becomes the active mode. -/
def applyStateMode (cfg : RouterConfig) (state : RouterState) : RouterConfig :=
  match state.activeMode with
  | some sm =>
    if sm = "" then cfg
    else
      match cfg.modes with
      | some modes =>
        if (modes.lookup sm).isSome then { cfg with activeMode := some sm } else cfg
      | none => cfg
  | none => cfg

/-- The state-override step of `loadConfig`: document plus state file to
effective configuration (preset branch first, then mode branch, exactly as
in the source). -/
def applyState (doc : RouterConfig) (stateFile : Option RouterState) : RouterConfig :=
  match stateFile with
  | none => doc
  | some state => applyStateMode (applyStatePreset doc state) state

/-- `loadConfig()`: return the cache verbatim when present and clean,
otherwise re-read the document and state from disk, reapply the state and
fill the cache. -/
def loadConfigM (d : Disk) (c : CacheState) : RouterConfig × CacheState :=
  match c.cachedConfig, c.configDirty with
  | some cfg, false => (cfg, c)
  | _, _ =>
    let cfg := applyState d.doc d.stateFile
    (cfg, ⟨some cfg, false⟩)

-- ---------------------------------------------------------------------------
-- Switch operations (writeState + invalidateConfigCache)
-- ---------------------------------------------------------------------------

/-- `saveActivePreset(presetName)`: load, resolve, and on success write the
merged state record (`{ ...readState(), activePreset: resolved }`), mutate
the in-memory config's `activePreset` and mark the cache dirty; on failure
do nothing. -/
def saveActivePresetM (d : Disk) (c : CacheState) (presetName : String) :
    Disk × CacheState :=
  let load := loadConfigM d c
  let cfg := load.1
  match resolvePresetName cfg presetName with
  | none => (d, load.2)
  | some resolved =>
    let old := readState d.stateFile
    (⟨d.doc, some ⟨some resolved, old.activeMode⟩⟩,
     ⟨some { cfg with activePreset := resolved }, true⟩)

/-- `saveActiveMode(modeName)`: load, check the mode key exists, and on
success write the merged state record (`{ ...readState(), activeMode:
modeName }`), mutate the in-memory config's `activeMode` and mark the cache
dirty; on failure do nothing. -/
def saveActiveModeM (d : Disk) (c : CacheState) (modeName : String) :
    Disk × CacheState :=
  let load := loadConfigM d c
  let cfg := load.1
  if ((cfg.modes.getD []).lookup modeName).isSome then
    let old := readState d.stateFile
    (⟨d.doc, some ⟨old.activePreset, some modeName⟩⟩,
     ⟨some { cfg with activeMode := some modeName }, true⟩)
  else
    (d, load.2)

-- ---------------------------------------------------------------------------
-- Active tiers and active mode
-- ---------------------------------------------------------------------------

/-- `getActiveTiers(cfg)`: the active preset's tiers, falling back to the
first preset in document order.  `none` models the JS `undefined` that
`Object.values(cfg.presets)[0]!` produces when `presets` is empty (the
non-null assertion is a lie there and the callers crash on it). -/
def getActiveTiers (cfg : RouterConfig) : Option Preset :=
  match cfg.presets.lookup cfg.activePreset with
  | some p => some p
  | none => (cfg.presets.map Prod.snd).head?

/-- `getActiveMode(cfg)`: the active mode's record, `undefined` when no
modes are configured, no mode name is set (or it is the falsy empty
string), or the name is not a key of `modes`. -/
def getActiveMode (cfg : RouterConfig) : Option ModeConfig :=
  match cfg.modes, cfg.activeMode with
  | some modes, some am => if am = "" then none else modes.lookup am
  | _, _ => none

/-- The rule-selection expression of `buildDelegationProtocol`:
`mode?.overrideRules?.length ? mode.overrideRules : cfg.rules` — a
non-empty override list fully replaces the global rules. -/
def effectiveRules (cfg : RouterConfig) : List String :=
  match getActiveMode cfg with
  | some mode =>
    match mode.overrideRules with
    | some overrides => if overrides = [] then cfg.rules else overrides
    | none => cfg.rules
  | none => cfg.rules

-- ---------------------------------------------------------------------------
-- Fallback instructions builder
-- ---------------------------------------------------------------------------

/-- The map-selection expression of `buildFallbackInstructions`: the
per-active-preset override map when present and non-empty, otherwise the
global map (possibly `undefined`). -/
def selectedFallbackMap (cfg : RouterConfig) (fb : FallbackConfig) :
    Option (List (String × List String)) :=
  match fb.presets.bind (fun ps => ps.lookup cfg.activePreset) with
  | some presetMap => if presetMap = [] then fb.global else some presetMap
  | none => fb.global

/-- The `validOrder` filter: drop the active preset itself and every name
that is not a key of `cfg.presets`, keeping the original order. -/
def validOrderFor (cfg : RouterConfig) (presetOrder : List String) : List String :=
  presetOrder.filter fun preset =>
    preset != cfg.activePreset && (cfg.presets.lookup preset).isSome

/-- The `providerLines` computation: one rendered line per provider whose
filtered list is non-empty (an empty filtered list omits the provider). -/
def providerLines (cfg : RouterConfig) (map : List (String × List String)) :
    List String :=
  map.filterMap fun entry =>
    let validOrder := validOrderFor cfg entry.2
    if validOrder = [] then none
    else some ("- " ++ entry.1 ++ ": " ++ joinSep " -> " validOrder)

/-- `buildFallbackInstructions(cfg)`: empty string when there is no fallback
config, no usable map, or every provider filtered away; otherwise the fixed
three instruction lines followed by the provider lines. -/
def buildFallbackInstructions (cfg : RouterConfig) : String :=
  match cfg.fallback with
  | none => ""
  | some fb =>
    match selectedFallbackMap cfg fb with
    | none => ""
    | some map =>
      let lines := providerLines cfg map
      if lines = [] then ""
      else
        joinLines
          (["Fallback on delegated task errors:",
            "1. If Task(...) returns provider/model/rate-limit/timeout/auth errors, retry once with a different tier suited to the same task.",
            "2. If retry also fails, stop delegating that task and complete it directly in the primary agent.",
            "3. Use the failing model prefix and this preset fallback order for next-run recovery (`/preset <name>` + restart):"]
            ++ lines)

-- ---------------------------------------------------------------------------
-- Cost & taxonomy builders
-- ---------------------------------------------------------------------------

/-- `buildTaskTaxonomy(cfg)`: empty when no task patterns are configured;
otherwise a header plus one line per tier with a non-empty pattern list. -/
def buildTaskTaxonomy (cfg : RouterConfig) : String :=
  match cfg.taskPatterns with
  | none => ""
  | some taskPatterns =>
    if taskPatterns = [] then ""
    else
      joinLines ("Coding task routing guide:" ::
        taskPatterns.filterMap fun entry =>
          if entry.2 = [] then none
          else some ("- @" ++ entry.1 ++ ": " ++ joinSep ", " entry.2))

/-- `buildCostAwareness(cfg)`: the `@tier=<ratio>x` pairs of the active
tiers that declare a cost ratio, or the empty string when none does.  (The
caller only reaches this with a non-empty preset set, so the `getD []` for
the crashing empty case is dead there.) -/
def buildCostAwareness (cfg : RouterConfig) : String :=
  let tiers := (getActiveTiers cfg).getD []
  let costs := joinSep ", "
    (tiers.filterMap fun nt =>
      nt.2.costRatio.map fun ratio => "@" ++ nt.1 ++ "=" ++ toString ratio ++ "x")
  if costs = "" then ""
  else "Cost ratios: " ++ costs ++ ". Always use the cheapest tier that can reliably handle the task."

-- ---------------------------------------------------------------------------
-- System prompt builder (the protocol compiler)
-- ---------------------------------------------------------------------------

/-- The numbered rule block: `effectiveRules.map((rule, i) => ...)` joined
with newlines. -/
def numberedRules (cfg : RouterConfig) : String :=
  joinLines ((effectiveRules cfg).mapIdx fun i rule => toString (i + 1) ++ ". " ++ rule)

/-- The whole line list of `buildDelegationProtocol`, given the active
tiers.  Optional blocks contribute nothing when empty (no residual blank
line). -/
def delegationProtocolLines (cfg : RouterConfig) (tiers : Preset) : List String :=
  let tierSummary := joinSep " | "
    (tiers.map fun nt =>
      let variant := match nt.2.variant with
        | some v => " (" ++ v ++ ")"
        | none => ""
      "@" ++ nt.1 ++ "=" ++ lastSegment nt.2.model ++ variant)
  let tierDescriptions := joinLines
    (tiers.map fun nt =>
      let uses := if nt.2.whenToUse = [] then nt.2.description
        else joinSep ", " nt.2.whenToUse
      "- @" ++ nt.1 ++ ": " ++ uses)
  let taxonomy := buildTaskTaxonomy cfg
  let costLine := buildCostAwareness cfg
  let fallbackInstructions := buildFallbackInstructions cfg
  ["## Model Delegation Protocol",
   "Preset: " ++ cfg.activePreset ++ ". Tiers: " ++ tierSummary ++ ".",
   "",
   "Tier capabilities:",
   tierDescriptions]
  ++ (if taxonomy ≠ "" then ["", taxonomy] else [])
  ++ (if costLine ≠ "" then ["", costLine] else [])
  ++ (match getActiveMode cfg with
      | some mode =>
        ["\nActive mode: " ++ cfg.activeMode.getD "" ++ " (" ++ mode.description ++ ")"]
      | none => [])
  ++ ["",
      "Apply to every user message (plan and ad-hoc):",
      numberedRules cfg]
  ++ (if fallbackInstructions ≠ "" then ["", fallbackInstructions] else [])
  ++ ["",
      "Delegate with Task(subagent_type=\"fast|medium|heavy\", prompt=\"...\").",
      "Keep orchestration and final synthesis in the primary agent."]

/-- `buildDelegationProtocol(cfg)`: the protocol string; `none` models the
crash on an empty preset set (`getActiveTiers` yields `undefined`). -/
def buildDelegationProtocol (cfg : RouterConfig) : Option String :=
  (getActiveTiers cfg).map fun tiers => joinLines (delegationProtocolLines cfg tiers)

-- ---------------------------------------------------------------------------
-- /tiers command output
-- ---------------------------------------------------------------------------

/-- The `thinkingStr` suffix of a `/tiers` line: thinking detail, else
reasoning detail, else nothing (the two renderings are mutually exclusive).
JS interpolates `undefined` for a missing inner field. -/
def tierDetail (t : TierConfig) : String :=
  match t.thinking with
  | some th =>
    " | thinking: " ++ (match th.budgetTokens with
      | some b => toString b
      | none => "undefined") ++ " tokens"
  | none =>
    match t.reasoning with
    | some r =>
      " | reasoning: effort=" ++ (match r.effort with
        | some e => e
        | none => "undefined")
    | none => ""

/-- `buildTiersOutput(cfg)`: the `/tiers` report; `none` models the crash on
an empty preset set. -/
def buildTiersOutput (cfg : RouterConfig) : Option String :=
  (getActiveTiers cfg).map fun tiers =>
    joinLines
      (["# Model Delegation Tiers",
        "Active preset: **" ++ cfg.activePreset ++ "**\n"]
      ++ (tiers.flatMap fun nt =>
          ["## @" ++ nt.1 ++ " -> `" ++ nt.2.model ++ "`" ++ tierDetail nt.2,
           nt.2.description,
           "Steps: " ++ (match nt.2.steps with
             | some s => toString s
             | none => "default"),
           "Use when: " ++ joinSep ", " nt.2.whenToUse ++ "\n"])
      ++ ["## Delegation Rules"]
      ++ cfg.rules.map (fun r => "- " ++ r)
      ++ ["\nDefault tier: @" ++ cfg.defaultTier,
          "\nAvailable presets: " ++ joinSep ", " (cfg.presets.map Prod.fst),
          "Switch with: `/preset <name>`",
          "Edit `tiers.json` to customize."])

-- ---------------------------------------------------------------------------
-- /preset command output
-- ---------------------------------------------------------------------------

/-- The no-argument `/preset` listing. -/
def presetListing (cfg : RouterConfig) : String :=
  joinLines
    ("# Available Presets\n" ::
      (cfg.presets.map fun entry =>
        let active := if entry.1 = cfg.activePreset then " <- active" else ""
        let models := joinSep ", "
          (entry.2.map fun nt => nt.1 ++ ": " ++ lastSegment nt.2.model)
        "- **" ++ entry.1 ++ "**" ++ active ++ ": " ++ models)
      ++ ["\nSwitch with: `/preset <name>`"])

/-- `buildPresetOutput(cfg, args)` together with the file/cache effects of
the `saveActivePreset` call inside its switch branch (the subsequent
`cfg.activePreset = resolvedPreset` mutation hits the same object the cache
holds, which `saveActivePresetM` already records). -/
def buildPresetOutputM (d : Disk) (c : CacheState) (cfg : RouterConfig)
    (args : String) : String × Disk × CacheState :=
  let requestedPreset := jsTrim args
  if requestedPreset = "" then
    (presetListing cfg, d, c)
  else
    match resolvePresetName cfg requestedPreset with
    | some resolvedPreset =>
      let switched := saveActivePresetM d c resolvedPreset
      let tiers := (cfg.presets.lookup resolvedPreset).getD []
      let models := joinLines (tiers.map fun nt => "  @" ++ nt.1 ++ " -> " ++ nt.2.model)
      (joinLines
        ["Preset switched to **" ++ resolvedPreset ++ "**.",
         "",
         models,
         "",
         "Selection is now persisted in ~/.config/opencode/opencode-model-router.state.json.",
         "Restart OpenCode for subagent model registration to take effect.",
         "System prompt delegation rules update immediately."],
       switched.1, switched.2)
    | none =>
      ("Unknown preset: \"" ++ requestedPreset ++ "\". Available: "
         ++ joinSep ", " (cfg.presets.map Prod.fst), d, c)

-- ---------------------------------------------------------------------------
-- /budget command output
-- ---------------------------------------------------------------------------

/-- `buildBudgetOutput(cfg, args)` together with the file/cache effects of
the `saveActiveMode` call inside its switch branch. -/
def buildBudgetOutputM (d : Disk) (c : CacheState) (cfg : RouterConfig)
    (args : String) : String × Disk × CacheState :=
  match cfg.modes with
  | none =>
    ("No modes configured in tiers.json. Add a \"modes\" section to enable budget mode.",
     d, c)
  | some modes =>
    if modes = [] then
      ("No modes configured in tiers.json. Add a \"modes\" section to enable budget mode.",
       d, c)
    else
      let requested := jsToLower (jsTrim args)
      let currentMode := match cfg.activeMode with
        | some am => if am = "" then "normal" else am
        | none => "normal"
      if requested = "" then
        (joinLines
          ("# Routing Modes\n" ::
            (modes.map fun entry =>
              let active := if entry.1 = currentMode then " <- active" else ""
              "- **" ++ entry.1 ++ "**" ++ active ++ ": " ++ entry.2.description
                ++ " (default tier: @" ++ entry.2.defaultTier ++ ")")
            ++ ["\nSwitch with: `/budget <mode>`"]), d, c)
      else
        match modes.lookup requested with
        | some mode =>
          let switched := saveActiveModeM d c requested
          (joinLines
            (["Routing mode switched to **" ++ requested ++ "**.",
              "",
              mode.description,
              "Default tier: @" ++ mode.defaultTier]
            ++ (match mode.overrideRules with
                | some overrides =>
                  if overrides = [] then []
                  else ["", "Active rules:"] ++ overrides.map (fun r => "- " ++ r)
                | none => [])
            ++ ["",
                "Mode change takes effect immediately on the next message."]),
           switched.1, switched.2)
        | none =>
          ("Unknown mode: \"" ++ requested ++ "\". Available: "
             ++ joinSep ", " (modes.map Prod.fst), d, c)

-- ---------------------------------------------------------------------------
-- The per-turn protocol injection
-- ---------------------------------------------------------------------------

/-- The `experimental.chat.system.transform` hook: `loadConfig()` (cache or
disk) followed by the pure compiler on the loaded configuration. -/
def compileProtocolM (d : Disk) (c : CacheState) : Option String × CacheState :=
  let load := loadConfigM d c
  (buildDelegationProtocol load.1, load.2)

-- ---------------------------------------------------------------------------
-- Helper lemmas
-- ---------------------------------------------------------------------------

theorem joinSep_cons (sep s : String) (rest : List String) (h : rest ≠ []) :
    joinSep sep (s :: rest) = s ++ sep ++ joinSep sep rest := by
  cases rest with
  | nil => exact absurd rfl h
  | cons a l => rfl

/-- Every element of a joined list occurs verbatim inside the joined
string. -/
theorem mem_joinSep_split (sep x : String) :
    ∀ l : List String, x ∈ l → ∃ a b, joinSep sep l = a ++ x ++ b := by
  intro l
  induction l with
  | nil => intro h; cases h
  | cons s rest ih =>
    intro hmem
    rcases List.mem_cons.1 hmem with heq | htail
    · cases rest with
      | nil =>
        exact ⟨"", "", by simp [joinSep, heq, String.empty_append, String.append_empty]⟩
      | cons a l =>
        refine ⟨"", sep ++ joinSep sep (a :: l), ?_⟩
        rw [joinSep_cons sep s (a :: l) (by simp), heq, String.empty_append,
          String.append_assoc]
    · rcases ih htail with ⟨a, b, hab⟩
      have hne : rest ≠ [] := by
        intro hnil; rw [hnil] at htail; cases htail
      refine ⟨s ++ sep ++ a, b, ?_⟩
      rw [joinSep_cons sep s rest hne, hab]
      simp [String.append_assoc]

theorem lookup_isSome_iff_mem_keys {β : Type} (key : String) :
    ∀ l : List (String × β), (l.lookup key).isSome ↔ key ∈ l.map Prod.fst := by
  intro l
  induction l with
  | nil => simp [List.lookup]
  | cons p rest ih =>
    rcases p with ⟨k, v⟩
    by_cases h : key = k
    · simp [List.lookup, h]
    · have hbeq : (key == k) = false := beq_false_of_ne h
      simp only [List.lookup, hbeq, List.map_cons, List.mem_cons]
      rw [ih]
      constructor
      · exact Or.inr
      · rintro (hk | hk)
        · exact absurd hk h
        · exact hk

theorem lookup_eq_none_iff_not_mem_keys {β : Type} (key : String)
    (l : List (String × β)) : l.lookup key = none ↔ key ∉ l.map Prod.fst := by
  rw [← lookup_isSome_iff_mem_keys]
  cases h : l.lookup key <;> simp [h]

/-- A successfully resolved name is always a key of the configured preset
set. -/
theorem resolvePresetName_mem_keys (cfg : RouterConfig) (requested resolved : String)
    (h : resolvePresetName cfg requested = some resolved) :
    resolved ∈ cfg.presets.map Prod.fst := by
  unfold resolvePresetName at h
  by_cases hexact : (cfg.presets.lookup requested).isSome
  · rw [if_pos hexact] at h
    cases h
    exact (lookup_isSome_iff_mem_keys requested cfg.presets).1 hexact
  · rw [if_neg hexact] at h
    by_cases hempty : jsToLower (jsTrim requested) = ""
    · simp only [hempty, if_pos rfl] at h
      cases h
    · rw [if_neg hempty] at h
      exact List.mem_of_find?_eq_some h

/-- The exact-match branch: resolution of an existing key returns that key
itself. -/
theorem resolvePresetName_of_mem_keys (cfg : RouterConfig) (key : String)
    (h : key ∈ cfg.presets.map Prod.fst) :
    resolvePresetName cfg key = some key := by
  unfold resolvePresetName
  rw [if_pos ((lookup_isSome_iff_mem_keys key cfg.presets).2 h)]

/-- `applyStatePreset` only rewrites `activePreset`. -/
theorem applyStatePreset_frame (cfg : RouterConfig) (state : RouterState) :
    (applyStatePreset cfg state).presets = cfg.presets ∧
    (applyStatePreset cfg state).modes = cfg.modes ∧
    (applyStatePreset cfg state).activeMode = cfg.activeMode ∧
    (applyStatePreset cfg state).rules = cfg.rules := by
  rcases state with ⟨sap, sam⟩
  cases sap with
  | none => simp [applyStatePreset]
  | some sp =>
    by_cases hsp : sp = ""
    · simp [applyStatePreset, hsp]
    · cases hres : resolvePresetName cfg sp <;> simp [applyStatePreset, hsp, hres]

/-- `applyStateMode` only rewrites `activeMode`. -/
theorem applyStateMode_frame (cfg : RouterConfig) (state : RouterState) :
    (applyStateMode cfg state).presets = cfg.presets ∧
    (applyStateMode cfg state).modes = cfg.modes ∧
    (applyStateMode cfg state).activePreset = cfg.activePreset ∧
    (applyStateMode cfg state).rules = cfg.rules := by
  rcases state with ⟨sap, sam⟩
  cases sam with
  | none => simp [applyStateMode]
  | some sm =>
    by_cases hsm : sm = ""
    · simp [applyStateMode, hsm]
    · cases hm : cfg.modes with
      | none => simp [applyStateMode, hsm, hm]
      | some modes =>
        by_cases hlk : (modes.lookup sm).isSome <;>
          simp [applyStateMode, hsm, hm, hlk]

/-- The effective configuration keeps the document's preset set and mode
set. -/
theorem applyState_frame (doc : RouterConfig) (st : Option RouterState) :
    (applyState doc st).presets = doc.presets ∧
    (applyState doc st).modes = doc.modes := by
  cases st with
  | none => exact ⟨rfl, rfl⟩
  | some state =>
    have h1 := applyStatePreset_frame doc state
    have h2 := applyStateMode_frame (applyStatePreset doc state) state
    exact ⟨h2.1.trans h1.1, h2.2.1.trans h1.2.1⟩

/-- `loadConfig` always leaves a clean cache holding exactly the
configuration it returned. -/
theorem loadConfigM_snd (d : Disk) (c : CacheState) :
    (loadConfigM d c).2 = ⟨some (loadConfigM d c).1, false⟩ := by
  unfold loadConfigM
  rcases c with ⟨cc, dirty⟩
  cases cc with
  | none => cases dirty <;> rfl
  | some cfg => cases dirty <;> rfl

/-- Lowercasing is empty exactly on the empty string. -/
theorem jsToLower_eq_empty_iff (s : String) : jsToLower s = "" ↔ s = "" := by
  constructor
  · intro h
    have hnil : s.data = [] := List.map_eq_nil_iff.mp (congrArg String.data h)
    exact String.ext hnil
  · intro h
    rw [h]
    rfl

/-- A value found by `lookup` is one of the list's values. -/
theorem lookup_mem_values {β : Type} (key : String) (v : β) :
    ∀ l : List (String × β), l.lookup key = some v → v ∈ l.map Prod.snd := by
  intro l
  induction l with
  | nil => intro h; cases h
  | cons p rest ih =>
    rcases p with ⟨k, w⟩
    intro h
    by_cases hk : key = k
    · have hbeq : (key == k) = true := beq_iff_eq.mpr hk
      simp only [List.lookup, hbeq] at h
      cases h
      simp
    · have hbeq : (key == k) = false := beq_false_of_ne hk
      simp only [List.lookup, hbeq] at h
      simpa using Or.inr (ih h)

/-- A clean, filled cache is returned verbatim, whatever is on disk. -/
theorem loadConfigM_clean (d : Disk) (cfg : RouterConfig) :
    loadConfigM d ⟨some cfg, false⟩ = (cfg, ⟨some cfg, false⟩) := rfl

/-- A dirty cache forces a full recomputation from disk: the document is
re-read and the persisted state reapplied, and the cache comes back clean. -/
theorem loadConfigM_dirty (d : Disk) (c : CacheState) (h : c.configDirty = true) :
    loadConfigM d c =
      (applyState d.doc d.stateFile, ⟨some (applyState d.doc d.stateFile), false⟩) := by
  rcases c with ⟨cc, dirty⟩
  cases dirty with
  | false => cases h
  | true => cases cc <;> rfl

/-- The successful branch of `saveActivePreset`, explicitly. -/
theorem saveActivePresetM_some (d : Disk) (c : CacheState) (name resolved : String)
    (hres : resolvePresetName (loadConfigM d c).1 name = some resolved) :
    saveActivePresetM d c name =
      (⟨d.doc, some ⟨some resolved, (readState d.stateFile).activeMode⟩⟩,
       ⟨some { (loadConfigM d c).1 with activePreset := resolved }, true⟩) := by
  simp only [saveActivePresetM, hres]

/-- The failing branch of `saveActivePreset`: nothing happens. -/
theorem saveActivePresetM_none (d : Disk) (c : CacheState) (name : String)
    (hres : resolvePresetName (loadConfigM d c).1 name = none) :
    saveActivePresetM d c name = (d, (loadConfigM d c).2) := by
  simp only [saveActivePresetM, hres]

/-- The successful branch of `saveActiveMode`, explicitly. -/
theorem saveActiveModeM_some (d : Disk) (c : CacheState) (name : String)
    (hlk : ((((loadConfigM d c).1.modes).getD []).lookup name).isSome = true) :
    saveActiveModeM d c name =
      (⟨d.doc, some ⟨(readState d.stateFile).activePreset, some name⟩⟩,
       ⟨some { (loadConfigM d c).1 with activeMode := some name }, true⟩) := by
  simp only [saveActiveModeM, hlk, if_true]

/-- The failing branch of `saveActiveMode`: nothing happens. -/
theorem saveActiveModeM_none (d : Disk) (c : CacheState) (name : String)
    (hlk : ¬ ((((loadConfigM d c).1.modes).getD []).lookup name).isSome = true) :
    saveActiveModeM d c name = (d, (loadConfigM d c).2) := by
  simp only [saveActiveModeM, if_neg hlk]

-- ---------------------------------------------------------------------------
-- Sample configurations (used by the witnesses)
-- ---------------------------------------------------------------------------

/-- A bare tier record. -/
def mkTier (model description : String) (whenToUse : List String) : TierConfig :=
  ⟨model, none, none, none, none, none, description, none, none, whenToUse⟩

/-- Two presets whose keys differ only by case. -/
def cfgResolver : RouterConfig :=
  { activePreset := "openai"
    activeMode := none
    presets := [("OpenAI", [("fast", mkTier "oa/mini" "mini" [])]),
                ("openai", [("fast", mkTier "oa/nano" "nano" [])])]
    rules := ["G1"]
    defaultTier := "fast"
    fallback := none
    taskPatterns := none
    modes := none }

-- ---------------------------------------------------------------------------
-- C2 — name resolution contract
-- ---------------------------------------------------------------------------

/-- C2: `resolvePresetName` returns the requested name whenever it is an
exact key of the preset set (even under case-insensitive key collisions);
otherwise it trims and lowercases the request and returns the first key
whose lowercased form matches; it returns `none` when the trimmed request
is empty or no key matches. -/
theorem claim_resolver_contract (cfg : RouterConfig) (requested : String) :
    (requested ∈ cfg.presets.map Prod.fst →
        resolvePresetName cfg requested = some requested) ∧
    (requested ∉ cfg.presets.map Prod.fst → jsTrim requested = "" →
        resolvePresetName cfg requested = none) ∧
    (requested ∉ cfg.presets.map Prod.fst → jsTrim requested ≠ "" →
        resolvePresetName cfg requested =
          (cfg.presets.map Prod.fst).find?
            (fun name => jsToLower name == jsToLower (jsTrim requested))) ∧
    (requested ∉ cfg.presets.map Prod.fst →
        (∀ name ∈ cfg.presets.map Prod.fst,
            jsToLower name ≠ jsToLower (jsTrim requested)) →
        resolvePresetName cfg requested = none) := by
  refine ⟨resolvePresetName_of_mem_keys cfg requested, ?_, ?_, ?_⟩ <;> intro hnotmem
  case _ =>
    intro htrim
    have hn : ¬ ((cfg.presets.lookup requested).isSome = true) := fun h =>
      hnotmem ((lookup_isSome_iff_mem_keys requested cfg.presets).1 h)
    simp only [resolvePresetName, if_neg hn, htrim]
    rfl
  case _ =>
    intro hne
    have hn : ¬ ((cfg.presets.lookup requested).isSome = true) := fun h =>
      hnotmem ((lookup_isSome_iff_mem_keys requested cfg.presets).1 h)
    have hnorm : jsToLower (jsTrim requested) ≠ "" := fun h =>
      hne ((jsToLower_eq_empty_iff (jsTrim requested)).1 h)
    simp only [resolvePresetName, if_neg hn, if_neg hnorm]
  case _ =>
    intro hnomatch
    have hn : ¬ ((cfg.presets.lookup requested).isSome = true) := fun h =>
      hnotmem ((lookup_isSome_iff_mem_keys requested cfg.presets).1 h)
    have hfind : (cfg.presets.map Prod.fst).find?
        (fun name => jsToLower name == jsToLower (jsTrim requested)) = none := by
      apply List.find?_eq_none.mpr
      intro x hx
      simp only [beq_iff_eq]
      exact hnomatch x hx
    by_cases htrim : jsTrim requested = ""
    · simp only [resolvePresetName, if_neg hn, htrim]
      rfl
    · have hnorm : jsToLower (jsTrim requested) ≠ "" := fun h =>
        htrim ((jsToLower_eq_empty_iff (jsTrim requested)).1 h)
      simp only [resolvePresetName, if_neg hn, if_neg hnorm]
      exact hfind

/-- C2 witness: exact match wins over the case-colliding key `OpenAI`; a
loosely-typed request resolves to the first case-insensitive match; an
unknown or blank request resolves to nothing. -/
theorem claim_resolver_contract_witness :
    resolvePresetName cfgResolver "openai" = some "openai" ∧
    resolvePresetName cfgResolver " OPENAI " = some "OpenAI" ∧
    resolvePresetName cfgResolver "gemini" = none ∧
    resolvePresetName cfgResolver "  " = none := by
  refine ⟨(claim_resolver_contract cfgResolver "openai").1 (by decide), ?_,
    (claim_resolver_contract cfgResolver "gemini").2.2.2 (by decide) (by decide),
    (claim_resolver_contract cfgResolver "  ").2.1 (by decide) (by decide)⟩
  have h := (claim_resolver_contract cfgResolver " OPENAI ").2.2.1 (by decide) (by decide)
  rw [h]
  decide

-- ---------------------------------------------------------------------------
-- C7 — silent fallback to the first preset
-- ---------------------------------------------------------------------------

/-- C7: when the effective `activePreset` is not a key of `presets`, the
compiler and the report builders operate on the first preset in document
order — they still produce output (a silent degrade), built from that first
preset's tiers. -/
theorem claim_first_preset_fallback (cfg : RouterConfig) (first : String × Preset)
    (rest : List (String × Preset))
    (hp : cfg.presets = first :: rest)
    (hmiss : cfg.presets.lookup cfg.activePreset = none) :
    getActiveTiers cfg = some first.2 ∧
    buildDelegationProtocol cfg =
      some (joinLines (delegationProtocolLines cfg first.2)) ∧
    buildTiersOutput cfg ≠ none := by
  have hat : getActiveTiers cfg = some first.2 := by
    unfold getActiveTiers
    rw [hmiss, hp]
    rfl
  refine ⟨hat, ?_, ?_⟩
  · unfold buildDelegationProtocol
    rw [hat]
    rfl
  · unfold buildTiersOutput
    rw [hat]
    simp

/-- A document whose `activePreset` names no configured preset. -/
def cfgMissingActive : RouterConfig :=
  { activePreset := "gone"
    activeMode := none
    presets := [("alpha", [("fast", mkTier "a/h" "haiku" ["search"])]),
                ("beta", [("fast", mkTier "g/f" "flash" [])])]
    rules := ["G1"]
    defaultTier := "fast"
    fallback := none
    taskPatterns := none
    modes := none }

/-- C7 witness: with `activePreset = "gone"` the builders run on the first
preset (`alpha`). -/
theorem claim_first_preset_fallback_witness :
    getActiveTiers cfgMissingActive = some [("fast", mkTier "a/h" "haiku" ["search"])] ∧
    buildDelegationProtocol cfgMissingActive =
      some (joinLines (delegationProtocolLines cfgMissingActive
        [("fast", mkTier "a/h" "haiku" ["search"])])) ∧
    buildTiersOutput cfgMissingActive ≠ none :=
  claim_first_preset_fallback cfgMissingActive
    ("alpha", [("fast", mkTier "a/h" "haiku" ["search"])])
    [("beta", [("fast", mkTier "g/f" "flash" [])])] rfl (by decide)

-- ---------------------------------------------------------------------------
-- C10 — empty preset set: validator accepts, getActiveTiers dereferences
-- ---------------------------------------------------------------------------

/-- A raw document with an empty `presets` object that passes validation. -/
def emptyPresetsDoc : Json :=
  .obj [("activePreset", .str "anthropic"), ("presets", .obj []),
        ("rules", .arr []), ("defaultTier", .str "fast")]

/-- The typed counterpart of `emptyPresetsDoc`. -/
def cfgNoPresets : RouterConfig :=
  { activePreset := "anthropic"
    activeMode := none
    presets := []
    rules := []
    defaultTier := "fast"
    fallback := none
    taskPatterns := none
    modes := none }

/-- C10: the validator accepts a document with an empty `presets` object,
yet on such a configuration `getActiveTiers` dereferences a missing value
(modelled as `none`) and everything built on it crashes; with at least one
preset configured, `getActiveTiers` is total and returns a preset that
belongs to the configured set. -/
theorem claim_empty_presets_partiality :
    validateConfig emptyPresetsDoc = Except.ok () ∧
    (∀ cfg : RouterConfig, cfg.presets = [] →
        getActiveTiers cfg = none ∧ buildDelegationProtocol cfg = none ∧
        buildTiersOutput cfg = none) ∧
    (∀ cfg : RouterConfig, cfg.presets ≠ [] →
        ∃ tiers, getActiveTiers cfg = some tiers ∧
          tiers ∈ cfg.presets.map Prod.snd) := by
  refine ⟨rfl, ?_, ?_⟩
  · intro cfg hp
    have hat : getActiveTiers cfg = none := by
      unfold getActiveTiers
      rw [hp]
      rfl
    exact ⟨hat, by unfold buildDelegationProtocol; rw [hat]; rfl,
      by unfold buildTiersOutput; rw [hat]; rfl⟩
  · intro cfg hp
    cases hlk : cfg.presets.lookup cfg.activePreset with
    | some tiers =>
      refine ⟨tiers, ?_, lookup_mem_values cfg.activePreset tiers cfg.presets hlk⟩
      unfold getActiveTiers
      rw [hlk]
    | none =>
      cases hps : cfg.presets with
      | nil => exact absurd hps hp
      | cons first rest =>
        refine ⟨first.2, ?_, by simp⟩
        unfold getActiveTiers
        rw [hlk, hps]
        rfl

/-- C10 witness: the empty-presets document validates, its typed form makes
`getActiveTiers` (and the builders) crash, and a non-empty configuration
gets a preset from the configured set. -/
theorem claim_empty_presets_partiality_witness :
    validateConfig emptyPresetsDoc = Except.ok () ∧
    getActiveTiers cfgNoPresets = none ∧
    buildDelegationProtocol cfgNoPresets = none ∧
    (∃ tiers, getActiveTiers cfgResolver = some tiers ∧
       tiers ∈ cfgResolver.presets.map Prod.snd) :=
  ⟨claim_empty_presets_partiality.1,
   (claim_empty_presets_partiality.2.1 cfgNoPresets rfl).1,
   (claim_empty_presets_partiality.2.1 cfgNoPresets rfl).2.1,
   claim_empty_presets_partiality.2.2 cfgResolver (by decide)⟩

-- ---------------------------------------------------------------------------
-- C3 — mode override rules fully replace the global rules
-- ---------------------------------------------------------------------------

/-- C3: with an active mode declaring a non-empty `overrideRules` list the
effective rule list is exactly that list; with no active mode, or an absent
or empty override list, it is exactly the global rule list (full
replacement, never a merge); the compiled protocol renders the effective
list numbered from 1, embedded verbatim in its output. -/
theorem claim_mode_override_rules :
    (∀ cfg mode overrides, getActiveMode cfg = some mode →
        mode.overrideRules = some overrides → overrides ≠ [] →
        effectiveRules cfg = overrides) ∧
    (∀ cfg, getActiveMode cfg = none → effectiveRules cfg = cfg.rules) ∧
    (∀ cfg mode, getActiveMode cfg = some mode →
        (mode.overrideRules = none ∨ mode.overrideRules = some []) →
        effectiveRules cfg = cfg.rules) ∧
    (∀ cfg, numberedRules cfg =
        joinLines ((effectiveRules cfg).mapIdx
          fun i rule => toString (i + 1) ++ ". " ++ rule)) ∧
    (∀ cfg tiers, getActiveTiers cfg = some tiers →
        ∃ before after, buildDelegationProtocol cfg =
          some (before ++ numberedRules cfg ++ after)) := by
  refine ⟨?_, ?_, ?_, fun _ => rfl, ?_⟩
  · intro cfg mode overrides hm hor hne
    simp only [effectiveRules, hm, hor]
    rw [if_neg hne]
  · intro cfg hm
    simp only [effectiveRules, hm]
  · intro cfg mode hm hcase
    rcases hcase with h | h <;> simp [effectiveRules, hm, h]
  · intro cfg tiers ht
    have hmem : numberedRules cfg ∈ delegationProtocolLines cfg tiers := by
      unfold delegationProtocolLines
      simp [List.mem_append]
    obtain ⟨before, after, hab⟩ :=
      mem_joinSep_split "\n" (numberedRules cfg) (delegationProtocolLines cfg tiers) hmem
    refine ⟨before, after, ?_⟩
    unfold buildDelegationProtocol
    rw [ht]
    show some (joinLines (delegationProtocolLines cfg tiers)) =
      some (before ++ numberedRules cfg ++ after)
    unfold joinLines
    rw [hab]

/-- A configuration in the shape of the spec's Scenario D: a `budget` mode
with two override rules, active. -/
def cfgBudget : RouterConfig :=
  { activePreset := "anthropic"
    activeMode := some "budget"
    presets := [("anthropic", [("fast", mkTier "a/h" "haiku" ["search"])])]
    rules := ["G1"]
    defaultTier := "fast"
    fallback := none
    taskPatterns := none
    modes := some [("budget", ⟨"fast", "cost saving", some ["R1", "R2"]⟩)] }

/-- C3 witness: on `cfgBudget` the effective rules are exactly the two
override rules, the rendered block is `1. R1\n2. R2`, and it appears
verbatim in the compiled protocol. -/
theorem claim_mode_override_rules_witness :
    effectiveRules cfgBudget = ["R1", "R2"] ∧
    numberedRules cfgBudget = "1. R1\n2. R2" ∧
    (∃ before after, buildDelegationProtocol cfgBudget =
        some (before ++ numberedRules cfgBudget ++ after)) :=
  ⟨claim_mode_override_rules.1 cfgBudget ⟨"fast", "cost saving", some ["R1", "R2"]⟩
      ["R1", "R2"] (by decide) rfl (by decide),
   by decide,
   claim_mode_override_rules.2.2.2.2 cfgBudget
      [("fast", mkTier "a/h" "haiku" ["search"])] (by decide)⟩

-- ---------------------------------------------------------------------------
-- C4 — fallback map selection and filtering
-- ---------------------------------------------------------------------------

/-- C4: the fallback builder prefers the per-active-preset map when present
and non-empty, else the global map, and produces nothing when neither
exists; each provider's list is filtered to orders that drop the active
preset and unknown preset names while preserving the original order, a
provider whose filtered list is empty is omitted, and every rendered line
comes from such a non-empty filtered list — so the output never references
a nonexistent or self-referential preset. -/
theorem claim_fallback_filtering :
    (∀ cfg, cfg.fallback = none → buildFallbackInstructions cfg = "") ∧
    (∀ cfg fb presetMap, cfg.fallback = some fb →
        fb.presets.bind (fun ps => ps.lookup cfg.activePreset) = some presetMap →
        presetMap ≠ [] → selectedFallbackMap cfg fb = some presetMap) ∧
    (∀ cfg fb, cfg.fallback = some fb →
        (fb.presets.bind (fun ps => ps.lookup cfg.activePreset) = none ∨
          fb.presets.bind (fun ps => ps.lookup cfg.activePreset) = some []) →
        selectedFallbackMap cfg fb = fb.global) ∧
    (∀ cfg fb, cfg.fallback = some fb → selectedFallbackMap cfg fb = none →
        buildFallbackInstructions cfg = "") ∧
    (∀ cfg presetOrder name, name ∈ validOrderFor cfg presetOrder →
        name ≠ cfg.activePreset ∧ name ∈ cfg.presets.map Prod.fst) ∧
    (∀ cfg presetOrder, (validOrderFor cfg presetOrder).Sublist presetOrder) ∧
    (∀ cfg map line, line ∈ providerLines cfg map →
        ∃ entry, entry ∈ map ∧ validOrderFor cfg entry.2 ≠ [] ∧
          line = "- " ++ entry.1 ++ ": " ++ joinSep " -> " (validOrderFor cfg entry.2)) ∧
    (∀ cfg fb map, cfg.fallback = some fb → selectedFallbackMap cfg fb = some map →
        providerLines cfg map = [] → buildFallbackInstructions cfg = "") := by
  refine ⟨?_, ?_, ?_, ?_, ?_, ?_, ?_, ?_⟩
  · intro cfg h
    simp only [buildFallbackInstructions, h]
  · intro cfg fb presetMap hfb hbind hne
    simp only [selectedFallbackMap, hbind]
    rw [if_neg hne]
  · intro cfg fb hfb hcase
    rcases hcase with h | h <;> simp [selectedFallbackMap, h]
  · intro cfg fb hfb hsel
    simp only [buildFallbackInstructions, hfb, hsel]
  · intro cfg presetOrder name hmem
    have h := List.mem_filter.1 hmem
    have h2 : (name != cfg.activePreset) = true ∧
        ((cfg.presets.lookup name).isSome = true) := by
      simpa [Bool.and_eq_true] using h.2
    exact ⟨bne_iff_ne.1 h2.1, (lookup_isSome_iff_mem_keys name cfg.presets).1 h2.2⟩
  · intro cfg presetOrder
    exact List.filter_sublist presetOrder
  · intro cfg map line hline
    obtain ⟨entry, hmem, hf⟩ := List.mem_filterMap.1 hline
    by_cases hvo : validOrderFor cfg entry.2 = []
    · simp only [hvo, if_pos rfl] at hf
      cases hf
    · simp only [if_neg hvo] at hf
      exact ⟨entry, hmem, hvo, (Option.some.injEq _ _ ▸ hf).symm⟩
  · intro cfg fb map hfb hsel hlines
    simp [buildFallbackInstructions, hfb, hsel, hlines]

/-- A configuration whose global fallback list names the active preset
itself, a nonexistent preset, and one valid alternative; a second provider
ends up with nothing valid at all. -/
def cfgFallback : RouterConfig :=
  { activePreset := "anthropic"
    activeMode := none
    presets := [("anthropic", [("fast", mkTier "a/h" "haiku" [])]),
                ("openai", [("fast", mkTier "oa/mini" "mini" [])])]
    rules := ["G1"]
    defaultTier := "fast"
    fallback := some ⟨some [("anthropic", ["anthropic", "ghost", "openai"]),
                            ("dead", ["anthropic", "ghost"])], none⟩
    taskPatterns := none
    modes := none }

/-- C4 witness: the filtered order keeps only `openai` (dropping the active
preset and the nonexistent `ghost`), the filter is order-preserving, and
the single rendered line comes from a non-empty filtered list. -/
theorem claim_fallback_filtering_witness :
    ("openai" ≠ cfgFallback.activePreset ∧
      "openai" ∈ cfgFallback.presets.map Prod.fst) ∧
    (validOrderFor cfgFallback ["anthropic", "ghost", "openai"]).Sublist
      ["anthropic", "ghost", "openai"] ∧
    (∃ entry,
        entry ∈ [("anthropic", ["anthropic", "ghost", "openai"]),
                 ("dead", ["anthropic", "ghost"])] ∧
        validOrderFor cfgFallback entry.2 ≠ [] ∧
        "- anthropic: openai" =
          "- " ++ entry.1 ++ ": " ++ joinSep " -> " (validOrderFor cfgFallback entry.2)) :=
  ⟨claim_fallback_filtering.2.2.2.2.1 cfgFallback
      ["anthropic", "ghost", "openai"] "openai" (by decide),
   claim_fallback_filtering.2.2.2.2.2.1 cfgFallback ["anthropic", "ghost", "openai"],
   claim_fallback_filtering.2.2.2.2.2.2.1 cfgFallback
      [("anthropic", ["anthropic", "ghost", "openai"]), ("dead", ["anthropic", "ghost"])]
      "- anthropic: openai" (by decide)⟩

-- ---------------------------------------------------------------------------
-- C5 — unknown preset/mode switch is a pure no-op
-- ---------------------------------------------------------------------------

/-- C5: switching to an unresolvable preset name leaves disk state and
cache untouched and returns the `Unknown preset` message listing every
configured preset name; the analogous property holds for an unknown mode
name and the `Unknown mode` message. -/
theorem claim_unknown_switch_noop :
    (∀ d c cfg args, jsTrim args ≠ "" →
        resolvePresetName cfg (jsTrim args) = none →
        buildPresetOutputM d c cfg args =
          ("Unknown preset: \"" ++ jsTrim args ++ "\". Available: "
             ++ joinSep ", " (cfg.presets.map Prod.fst), d, c)) ∧
    (∀ d c cfg args modes, cfg.modes = some modes → modes ≠ [] →
        jsToLower (jsTrim args) ≠ "" →
        modes.lookup (jsToLower (jsTrim args)) = none →
        buildBudgetOutputM d c cfg args =
          ("Unknown mode: \"" ++ jsToLower (jsTrim args) ++ "\". Available: "
             ++ joinSep ", " (modes.map Prod.fst), d, c)) := by
  constructor
  · intro d c cfg args hne hres
    simp only [buildPresetOutputM, if_neg hne, hres]
  · intro d c cfg args modes hmodes hmne hrne hlk
    simp only [buildBudgetOutputM, hmodes, if_neg hmne, if_neg hrne, hlk]

/-- C5 witness: `preset nonexistent` and `budget quality` return the
unknown-name messages and leave the disk and the cache exactly as they
were. -/
theorem claim_unknown_switch_noop_witness :
    buildPresetOutputM ⟨cfgResolver, none⟩ ⟨some cfgResolver, false⟩ cfgResolver
        "nonexistent" =
      ("Unknown preset: \"nonexistent\". Available: OpenAI, openai",
       ⟨cfgResolver, none⟩, ⟨some cfgResolver, false⟩) ∧
    buildBudgetOutputM ⟨cfgBudget, none⟩ ⟨some cfgBudget, false⟩ cfgBudget
        "Quality" =
      ("Unknown mode: \"quality\". Available: budget",
       ⟨cfgBudget, none⟩, ⟨some cfgBudget, false⟩) := by
  constructor
  · rw [claim_unknown_switch_noop.1 ⟨cfgResolver, none⟩ ⟨some cfgResolver, false⟩
      cfgResolver "nonexistent" (by decide) (by decide)]
    decide
  · rw [claim_unknown_switch_noop.2 ⟨cfgBudget, none⟩ ⟨some cfgBudget, false⟩
      cfgBudget "Quality" [("budget", ⟨"fast", "cost saving", some ["R1", "R2"]⟩)]
      rfl (by decide) (by decide) (by decide)]
    decide

-- ---------------------------------------------------------------------------
-- C6 — state-over-document precedence at load time
-- ---------------------------------------------------------------------------

/-- A valid document with a preset whose key is the empty string. -/
def docEmptyKey : RouterConfig :=
  { activePreset := "anthropic"
    activeMode := none
    presets := [("", []), ("anthropic", [("fast", mkTier "a/h" "haiku" [])])]
    rules := []
    defaultTier := "fast"
    fallback := none
    taskPatterns := none
    modes := none }

/-- C6 counterexample: a persisted `activePreset` of `""` resolves
successfully against a document that configures a preset under the empty
key, yet `loadConfig` keeps the document's own `activePreset` — the empty
string is falsy in JS, so the claimed override does not happen. -/
theorem claim_state_precedence_counterexample :
    (⟨some "", none⟩ : RouterState).activePreset = some "" ∧
    resolvePresetName docEmptyKey "" = some "" ∧
    (applyState docEmptyKey (some ⟨some "", none⟩)).activePreset ≠ "" := by
  decide

/-- C6 (amended): a persisted, *non-empty* `activePreset` that resolves
successfully overrides the document's value; the same precedence holds for
a non-empty `activeMode` naming a configured mode; an absent, empty or
unresolvable state value leaves the document's value in effect (and with no
document-level mode, no mode is active). -/
theorem claim_state_precedence_amended (doc : RouterConfig) (state : RouterState) :
    (∀ sp resolved, state.activePreset = some sp → sp ≠ "" →
        resolvePresetName doc sp = some resolved →
        (applyState doc (some state)).activePreset = resolved) ∧
    ((state.activePreset = none ∨ state.activePreset = some "" ∨
        (∀ sp, state.activePreset = some sp → resolvePresetName doc sp = none)) →
        (applyState doc (some state)).activePreset = doc.activePreset) ∧
    (∀ sm, state.activeMode = some sm → sm ≠ "" →
        (((doc.modes.getD []).lookup sm).isSome = true) →
        (applyState doc (some state)).activeMode = some sm) ∧
    ((state.activeMode = none ∨ state.activeMode = some "" ∨
        (∀ sm, state.activeMode = some sm → (doc.modes.getD []).lookup sm = none)) →
        (applyState doc (some state)).activeMode = doc.activeMode) ∧
    (applyState doc none = doc) ∧
    ((applyState doc (some state)).activeMode = doc.activeMode →
        doc.activeMode = none →
        getActiveMode (applyState doc (some state)) = none) := by
  have happ : applyState doc (some state) =
      applyStateMode (applyStatePreset doc state) state := rfl
  refine ⟨?_, ?_, ?_, ?_, rfl, ?_⟩
  · intro sp resolved hsp hne hres
    have h1 : (applyStatePreset doc state).activePreset = resolved := by
      simp only [applyStatePreset, hsp, if_neg hne, hres]
    rw [happ]
    exact (applyStateMode_frame (applyStatePreset doc state) state).2.2.1.trans h1
  · intro hcase
    have h1 : applyStatePreset doc state = doc := by
      rcases hcase with h | h | h
      · simp [applyStatePreset, h]
      · simp [applyStatePreset, h]
      · cases hsp : state.activePreset with
        | none => simp [applyStatePreset, hsp]
        | some sp =>
          by_cases hse : sp = ""
          · simp [applyStatePreset, hsp, hse]
          · simp [applyStatePreset, hsp, hse, h sp hsp]
    rw [happ, h1]
    exact (applyStateMode_frame doc state).2.2.1
  · intro sm hsm hne hlk
    have hframe := (applyStatePreset_frame doc state).2.1
    rw [happ]
    cases hm : doc.modes with
    | none =>
      rw [hm] at hlk
      simp at hlk
    | some modes =>
      rw [hm] at hlk
      have hcm : (applyStatePreset doc state).modes = some modes := hframe.trans hm
      simp only [applyStateMode, hsm, if_neg hne, hcm]
      simp only [Option.getD_some] at hlk
      rw [if_pos hlk]
  · intro hcase
    have hframe := applyStatePreset_frame doc state
    have h1 : applyStateMode (applyStatePreset doc state) state =
        applyStatePreset doc state := by
      rcases hcase with h | h | h
      · simp [applyStateMode, h]
      · simp [applyStateMode, h]
      · cases hsm : state.activeMode with
        | none => simp [applyStateMode, hsm]
        | some sm =>
          by_cases hse : sm = ""
          · simp [applyStateMode, hsm, hse]
          · cases hm : (applyStatePreset doc state).modes with
            | none => simp [applyStateMode, hsm, hse, hm]
            | some modes =>
              have hdm : doc.modes = some modes := hframe.2.1.symm.trans hm
              have hnone : modes.lookup sm = none := by
                have := h sm hsm
                rw [hdm] at this
                simpa using this
              simp [applyStateMode, hsm, hse, hm, hnone]
    rw [happ, h1]
    exact hframe.2.2.1
  · intro heq hdoc
    have hmode : (applyState doc (some state)).activeMode = none := heq.trans hdoc
    cases hm : (applyState doc (some state)).modes <;>
      simp [getActiveMode, hm, hmode]

/-- A document with two presets and one mode, for exercising the state
override. -/
def docForState : RouterConfig :=
  { activePreset := "openai"
    activeMode := none
    presets := [("anthropic", [("fast", mkTier "a/h" "haiku" [])]),
                ("openai", [("fast", mkTier "oa/mini" "mini" [])])]
    rules := ["G1"]
    defaultTier := "fast"
    fallback := none
    taskPatterns := none
    modes := some [("budget", ⟨"fast", "cost saving", some ["R1"]⟩)] }

/-- C6 witness: a non-empty persisted preset name (`"Anthropic"`, resolving
case-insensitively to `anthropic`) and mode name override the document; an
absent state leaves the document values, with no mode active. -/
theorem claim_state_precedence_amended_witness :
    (applyState docForState (some ⟨some "Anthropic", some "budget"⟩)).activePreset =
      "anthropic" ∧
    (applyState docForState (some ⟨some "Anthropic", some "budget"⟩)).activeMode =
      some "budget" ∧
    (applyState docForState (some ⟨none, none⟩)).activePreset = "openai" ∧
    (applyState docForState (some ⟨none, none⟩)).activeMode = none ∧
    getActiveMode (applyState docForState (some ⟨none, none⟩)) = none := by
  refine ⟨(claim_state_precedence_amended docForState
      ⟨some "Anthropic", some "budget"⟩).1 "Anthropic" "anthropic" rfl
      (by decide) (by decide),
    (claim_state_precedence_amended docForState
      ⟨some "Anthropic", some "budget"⟩).2.2.1 "budget" rfl (by decide) (by decide),
    (claim_state_precedence_amended docForState ⟨none, none⟩).2.1 (Or.inl rfl),
    ?_, ?_⟩
  · have h := (claim_state_precedence_amended docForState ⟨none, none⟩).2.2.2.1
      (Or.inl rfl)
    simpa using h
  · exact (claim_state_precedence_amended docForState ⟨none, none⟩).2.2.2.2.2
      (by decide) rfl

-- ---------------------------------------------------------------------------
-- C8 — switches mutate only the state file, never tiers.json
-- ---------------------------------------------------------------------------

/-- C8: neither `saveActivePreset` nor `saveActiveMode` ever changes the
configuration document; a successful switch writes only the merged override
record, retaining the other persisted key. -/
theorem claim_switch_never_mutates_document :
    (∀ d c name, (saveActivePresetM d c name).1.doc = d.doc) ∧
    (∀ d c name, (saveActiveModeM d c name).1.doc = d.doc) ∧
    (∀ d c name resolved,
        resolvePresetName (loadConfigM d c).1 name = some resolved →
        (saveActivePresetM d c name).1.stateFile =
          some ⟨some resolved, (readState d.stateFile).activeMode⟩) ∧
    (∀ d c name,
        ((((loadConfigM d c).1.modes).getD []).lookup name).isSome = true →
        (saveActiveModeM d c name).1.stateFile =
          some ⟨(readState d.stateFile).activePreset, some name⟩) := by
  refine ⟨?_, ?_, ?_, ?_⟩
  · intro d c name
    cases hres : resolvePresetName (loadConfigM d c).1 name with
    | none => rw [saveActivePresetM_none d c name hres]
    | some resolved => rw [saveActivePresetM_some d c name resolved hres]
  · intro d c name
    by_cases hlk : ((((loadConfigM d c).1.modes).getD []).lookup name).isSome = true
    · rw [saveActiveModeM_some d c name hlk]
    · rw [saveActiveModeM_none d c name hlk]
  · intro d c name resolved hres
    rw [saveActivePresetM_some d c name resolved hres]
  · intro d c name hlk
    rw [saveActiveModeM_some d c name hlk]

/-- The disk before the C8 witness switch: a state file already holding a
persisted mode. -/
def diskBefore : Disk := ⟨docForState, some ⟨some "openai", some "budget"⟩⟩

/-- C8 witness: switching the preset on a disk whose state file also holds
a mode leaves the document untouched and writes the merged record,
retaining the persisted mode. -/
theorem claim_switch_never_mutates_document_witness :
    (saveActivePresetM diskBefore ⟨none, true⟩ "anthropic").1.doc = docForState ∧
    (saveActivePresetM diskBefore ⟨none, true⟩ "anthropic").1.stateFile =
      some ⟨some "anthropic", some "budget"⟩ := by
  constructor
  · exact claim_switch_never_mutates_document.1 diskBefore ⟨none, true⟩ "anthropic"
  · rw [claim_switch_never_mutates_document.2.2.1 diskBefore ⟨none, true⟩
      "anthropic" "anthropic" (by decide)]
    decide

-- ---------------------------------------------------------------------------
-- C9 — the protocol compiler is pure and idempotent
-- ---------------------------------------------------------------------------

/-- C9: compiling twice with no intervening state change returns the
byte-identical string and the identical cache; with a clean cache the
result does not depend on the disk at all, and the output is exactly the
pure function `buildDelegationProtocol` of the cached configuration. -/
theorem claim_compiler_deterministic :
    (∀ d c, compileProtocolM d (compileProtocolM d c).2 = compileProtocolM d c) ∧
    (∀ d1 d2 cfg,
        compileProtocolM d1 ⟨some cfg, false⟩ = compileProtocolM d2 ⟨some cfg, false⟩) ∧
    (∀ d cfg, (compileProtocolM d ⟨some cfg, false⟩).1 = buildDelegationProtocol cfg) := by
  refine ⟨?_, fun d1 d2 cfg => rfl, fun d cfg => rfl⟩
  intro d c
  have h1 : compileProtocolM d c =
      (buildDelegationProtocol (loadConfigM d c).1, (loadConfigM d c).2) := rfl
  rw [h1, loadConfigM_snd d c]
  rfl

-- ---------------------------------------------------------------------------
-- C1 — cache coherence across switches
-- ---------------------------------------------------------------------------

/-- C1: a clean cache is returned verbatim without consulting the disk; a
dirty cache is fully recomputed from disk (document re-read, state
reapplied) before being returned; and after a successful preset or mode
switch the cache is dirty and the very next `loadConfig` +
`buildDelegationProtocol` reflect the newly persisted active preset/mode
with no explicit reload.  (The two frame hypotheses on the loaded
configuration hold for every cache the program can actually reach, since
every cached value is produced by `applyState`, which never changes
`presets` or `modes`.) -/
theorem claim_cache_coherence :
    (∀ d cfg, loadConfigM d ⟨some cfg, false⟩ = (cfg, ⟨some cfg, false⟩)) ∧
    (∀ d c, c.configDirty = true →
        loadConfigM d c = (applyState d.doc d.stateFile,
          ⟨some (applyState d.doc d.stateFile), false⟩)) ∧
    (∀ d c name resolved,
        (loadConfigM d c).1.presets = d.doc.presets →
        resolvePresetName (loadConfigM d c).1 name = some resolved →
        resolved ≠ "" →
        (saveActivePresetM d c name).2.configDirty = true ∧
        (loadConfigM (saveActivePresetM d c name).1
            (saveActivePresetM d c name).2).1.activePreset = resolved ∧
        (compileProtocolM (saveActivePresetM d c name).1
            (saveActivePresetM d c name).2).1 =
          buildDelegationProtocol
            (applyState (saveActivePresetM d c name).1.doc
              (saveActivePresetM d c name).1.stateFile)) ∧
    (∀ d c name,
        (loadConfigM d c).1.modes = d.doc.modes →
        ((((loadConfigM d c).1.modes).getD []).lookup name).isSome = true →
        name ≠ "" →
        (saveActiveModeM d c name).2.configDirty = true ∧
        (loadConfigM (saveActiveModeM d c name).1
            (saveActiveModeM d c name).2).1.activeMode = some name ∧
        (compileProtocolM (saveActiveModeM d c name).1
            (saveActiveModeM d c name).2).1 =
          buildDelegationProtocol
            (applyState (saveActiveModeM d c name).1.doc
              (saveActiveModeM d c name).1.stateFile)) := by
  refine ⟨fun d cfg => rfl, loadConfigM_dirty, ?_, ?_⟩
  · intro d c name resolved hpres hres hne
    rw [saveActivePresetM_some d c name resolved hres]
    refine ⟨rfl, ?_, rfl⟩
    show (applyState d.doc
      (some ⟨some resolved, (readState d.stateFile).activeMode⟩)).activePreset = resolved
    have hmem : resolved ∈ d.doc.presets.map Prod.fst := by
      have h := resolvePresetName_mem_keys (loadConfigM d c).1 name resolved hres
      rwa [hpres] at h
    have hres2 : resolvePresetName d.doc resolved = some resolved :=
      resolvePresetName_of_mem_keys d.doc resolved hmem
    have h1 : (applyStatePreset d.doc
        ⟨some resolved, (readState d.stateFile).activeMode⟩).activePreset = resolved := by
      simp only [applyStatePreset, if_neg hne, hres2]
    exact (applyStateMode_frame _ _).2.2.1.trans h1
  · intro d c name hmodes hlk hne
    rw [hmodes] at hlk
    rw [saveActiveModeM_some d c name (by rw [hmodes]; exact hlk)]
    refine ⟨rfl, ?_, rfl⟩
    show (applyState d.doc
      (some ⟨(readState d.stateFile).activePreset, some name⟩)).activeMode = some name
    have hframe := (applyStatePreset_frame d.doc
      ⟨(readState d.stateFile).activePreset, some name⟩).2.1
    cases hm : d.doc.modes with
    | none =>
      rw [hm] at hlk
      simp at hlk
    | some modes =>
      rw [hm] at hlk
      simp only [Option.getD_some] at hlk
      have hcm : (applyStatePreset d.doc
          ⟨(readState d.stateFile).activePreset, some name⟩).modes = some modes :=
        hframe.trans hm
      show (applyStateMode (applyStatePreset d.doc
          ⟨(readState d.stateFile).activePreset, some name⟩)
          ⟨(readState d.stateFile).activePreset, some name⟩).activeMode = some name
      simp only [applyStateMode, if_neg hne, hcm]
      rw [if_pos hlk]

/-- C1 witness: on a concrete disk, switching the preset to `anthropic`
(and the mode to `budget`) marks the cache dirty and the very next load
returns an effective configuration carrying the new preset (resp. mode). -/
theorem claim_cache_coherence_witness :
    (saveActivePresetM ⟨docForState, none⟩ ⟨none, true⟩ "anthropic").2.configDirty
      = true ∧
    (loadConfigM (saveActivePresetM ⟨docForState, none⟩ ⟨none, true⟩ "anthropic").1
        (saveActivePresetM ⟨docForState, none⟩ ⟨none, true⟩ "anthropic").2).1.activePreset
      = "anthropic" ∧
    (saveActiveModeM ⟨docForState, none⟩ ⟨none, true⟩ "budget").2.configDirty = true ∧
    (loadConfigM (saveActiveModeM ⟨docForState, none⟩ ⟨none, true⟩ "budget").1
        (saveActiveModeM ⟨docForState, none⟩ ⟨none, true⟩ "budget").2).1.activeMode
      = some "budget" :=
  ⟨(claim_cache_coherence.2.2.1 ⟨docForState, none⟩ ⟨none, true⟩ "anthropic"
      "anthropic" (by decide) (by decide) (by decide)).1,
   (claim_cache_coherence.2.2.1 ⟨docForState, none⟩ ⟨none, true⟩ "anthropic"
      "anthropic" (by decide) (by decide) (by decide)).2.1,
   (claim_cache_coherence.2.2.2 ⟨docForState, none⟩ ⟨none, true⟩ "budget"
      (by decide) (by decide) (by decide)).1,
   (claim_cache_coherence.2.2.2 ⟨docForState, none⟩ ⟨none, true⟩ "budget"
      (by decide) (by decide) (by decide)).2.1⟩
